import Mathlib

/-!
Shallow embedding of the Beeftext update-check orchestrator
(`UpdateManager.cpp`) and of the global path/clipboard helpers
(`BeeftextGlobals.cpp`), with theorems checking the specification's
claims against the code.

Times are millisecond timestamps, modelled as `Int` (the source uses
`qint64`; the quantities involved stay far from the 64-bit range, and
the claims do not concern overflow).  A null `QDateTime` is `none`.
-/

namespace UpdateManager

/-- `kLaunchCheckDelayMs` from the anonymous namespace: delay for a check
for update at launch, in milliseconds. -/
def kLaunchCheckDelayMs : Int := 1000

/-- `kUpdateCheckIntervalMs`: the interval for checking for updates, in
milliseconds (24 hours). -/
def kUpdateCheckIntervalMs : Int := 1000 * 60 * 60 * 24

/-- The `SpLatestVersionInfo` payload as consumed by the orchestrator
(major and minor version numbers).  A null shared pointer is modelled as
`none` at the use sites. -/
structure LatestVersionInfo where
  versionMajor : Int
  versionMinor : Int
deriving DecidableEq

/-- The signals the orchestrator emits (their payloads exactly as in the
`emit` statements of the source). -/
inductive Signal where
  | startedUpdateCheck
  | finishedUpdateCheck
  | updateIsAvailable (versionMajor versionMinor : Int)
  | noUpdateIsAvailable
  | updateCheckFailed
deriving DecidableEq

/-- Observable actions of the orchestrator, in program order: timer
operations, thread lifecycle operations, signal emissions, the debug-log
write and the modal dialog of `onWorkerUpdateIsAvailable`, and the write
of the last-update-check preference. -/
inductive Action where
  | timerStop
  | timerStart (delayMs : Int)
  | threadStart
  | threadQuit
  | threadWait
  | deleteWorker
  | threadDeleteLater
  | emit (s : Signal)
  | debugLogInfo (versionMajor versionMinor : Int)
  | execUpdateDialog (versionMajor versionMinor : Int)
  | setLastCheck (t : Int)
deriving DecidableEq

/-- Combined state of the orchestrator and the preference values it reads
and writes.  `timerArmed`/`timerInterval` model the single-shot `timer_`
(`timerInterval` is the delay passed to the last `start`, meaningful while
armed); `lastUpdateCheckDateTime` and `autoCheckForUpdates` model the two
preferences held by `PreferencesManager`; `activeWorkers` counts worker
threads that have been started and not yet torn down. -/
structure UMState where
  timerArmed : Bool
  timerInterval : Int
  lastUpdateCheckDateTime : Option Int
  autoCheckForUpdates : Bool
  activeWorkers : Nat
deriving DecidableEq

/-- The delay computation of `onAutoCheckForUpdateChanged`:
`lastCheckDateTime.isNull() ? kLaunchCheckDelayMs
 : qMax(kLaunchCheckDelayMs, now.msecsTo(lastCheckDateTime.addMSecs(kUpdateCheckIntervalMs)))`.
`a.msecsTo b` is `b - a`. -/
def msSecsToNextCheck (now : Int) (lastCheckDateTime : Option Int) : Int :=
  match lastCheckDateTime with
  | none => kLaunchCheckDelayMs
  | some t => max kLaunchCheckDelayMs ((t + kUpdateCheckIntervalMs) - now)

/-- `UpdateManager::onAutoCheckForUpdateChanged(bool enabled)`: stops the
timer, returns if auto-check is disabled, otherwise computes the delay to
the next check and starts the timer.  The `autoCheckForUpdates` field is
updated to `enabled` because the `PreferencesManager` signal this slot is
connected to fires when that stored preference changes. -/
def onAutoCheckForUpdateChanged (enabled : Bool) (now : Int) (s : UMState) : UMState :=
  let s1 : UMState := { s with timerArmed := false, autoCheckForUpdates := enabled }
  if !enabled then s1
  else { s1 with
          timerArmed := true
          timerInterval := msSecsToNextCheck now s.lastUpdateCheckDateTime }

/-- The state a freshly constructed `UpdateManager` has right before the
constructor invokes `onAutoCheckForUpdateChanged`: single-shot timer not
started, given preference values. -/
def initialState (autoCheck : Bool) (lastCheck : Option Int) : UMState :=
  { timerArmed := false
    timerInterval := 0
    lastUpdateCheckDateTime := lastCheck
    autoCheckForUpdates := autoCheck
    activeWorkers := 0 }

/-- `UpdateManager::UpdateManager()`: sets the timer up (disarmed), then
calls `onAutoCheckForUpdateChanged(prefs.autoCheckForUpdates())`. -/
def construct (autoCheck : Bool) (lastCheck : Option Int) (now : Int) : UMState :=
  let s := initialState autoCheck lastCheck
  onAutoCheckForUpdateChanged s.autoCheckForUpdates now s

/-- `UpdateManager::startUpdateCheckWorker()`: emits `startedUpdateCheck`,
creates a thread and a worker, connects the worker's signals, and starts
the thread.  There is no guard on `activeWorkers`. -/
def startUpdateCheckWorker (s : UMState) : UMState × List Action :=
  ({ s with activeWorkers := s.activeWorkers + 1 },
   [Action.emit Signal.startedUpdateCheck, Action.threadStart])

/-- `UpdateManager::checkForUpdate()`: `timer_.stop()` then
`startUpdateCheckWorker()`. -/
def checkForUpdate (s : UMState) : UMState × List Action :=
  let s1 : UMState := { s with timerArmed := false }
  let p := startUpdateCheckWorker s1
  (p.1, Action.timerStop :: p.2)

/-- `UpdateManager::onWorkerFinished()`: if the sender cannot be cast to
an `UpdateCheckWorker`, throws an `xmilib::Exception` before any teardown
(modelled as `Except.error` with the exception message and no state change
or action); otherwise quits, waits for and disposes the worker thread,
emits `finishedUpdateCheck`, persists the current time as the
last-update-check preference, and restarts the timer with the full
interval — unconditionally, without reading `autoCheckForUpdates`. -/
def onWorkerFinished (senderIsWorker : Bool) (now : Int) (s : UMState) :
    Except String (UMState × List Action) :=
  if !senderIsWorker then
    Except.error "An Internal error occurred while checking for updates."
  else
    Except.ok
      ({ s with
          activeWorkers := s.activeWorkers - 1
          lastUpdateCheckDateTime := some now
          timerArmed := true
          timerInterval := kUpdateCheckIntervalMs },
       [Action.threadQuit, Action.threadWait, Action.deleteWorker,
        Action.threadDeleteLater,
        Action.emit Signal.finishedUpdateCheck,
        Action.setLastCheck now,
        Action.timerStart kUpdateCheckIntervalMs])

/-- `UpdateManager::onWorkerUpdateIsAvailable(SpLatestVersionInfo const&)`:
throws if the pointer is null (no signal emitted), otherwise logs, emits
`updateIsAvailable` and shows the modal update dialog. -/
def onWorkerUpdateIsAvailable (latestVersionInfo : Option LatestVersionInfo) :
    Except String (List Action) :=
  match latestVersionInfo with
  | none =>
      Except.error "onWorkerUpdateIsAvailable(): latestVersionInfo parameter is null."
  | some v =>
      Except.ok
        [Action.debugLogInfo v.versionMajor v.versionMinor,
         Action.emit (Signal.updateIsAvailable v.versionMajor v.versionMinor),
         Action.execUpdateDialog v.versionMajor v.versionMinor]

/-- `UpdateManager::onWorkerNoUpdateIsAvailable()`: emits
`noUpdateIsAvailable`. -/
def onWorkerNoUpdateIsAvailable : List Action :=
  [Action.emit Signal.noUpdateIsAvailable]

/-- `UpdateManager::onWorkerError(QString const& error)`: emits
`updateCheckFailed()`.  The `error` parameter is not used. -/
def onWorkerError (error : String) : List Action :=
  [Action.emit Signal.updateCheckFailed]

/-- The worker's three possible terminal outcomes. -/
inductive Outcome where
  | updateAvailable (versionMajor versionMinor : Int)
  | noUpdate
  | error (msg : String)
deriving DecidableEq

/-- A signal sent by the worker to the orchestrator. -/
inductive WorkerSignal where
  | outcomeSignal (o : Outcome)
  | finished
deriving DecidableEq

/-- Modelled from the spec: the `UpdateCheckWorker` source is not in the
repository excerpt; per the spec it "reports exactly one of three terminal
outcomes before signaling completion", so a run delivers the outcome
signal followed by `finished`. -/
def workerRun (o : Outcome) : List WorkerSignal :=
  [WorkerSignal.outcomeSignal o, WorkerSignal.finished]

/-- Dispatch of a worker signal to the slot it is connected to in
`startUpdateCheckWorker`.  An `updateIsAvailable` outcome carries a
non-null pointer; the `finished` signal's sender is the worker. -/
def dispatchSignal (now : Int) (s : UMState) :
    WorkerSignal → Except String (UMState × List Action)
  | WorkerSignal.outcomeSignal (Outcome.updateAvailable maj minv) =>
      match onWorkerUpdateIsAvailable (some ⟨maj, minv⟩) with
      | Except.error e => Except.error e
      | Except.ok acts => Except.ok (s, acts)
  | WorkerSignal.outcomeSignal Outcome.noUpdate =>
      Except.ok (s, onWorkerNoUpdateIsAvailable)
  | WorkerSignal.outcomeSignal (Outcome.error msg) =>
      Except.ok (s, onWorkerError msg)
  | WorkerSignal.finished => onWorkerFinished true now s

/-- Processes a list of worker signals in order, threading the state and
concatenating the observable actions; an exception aborts the run. -/
def runSignals (now : Int) : UMState → List WorkerSignal →
    Except String (UMState × List Action)
  | s, [] => Except.ok (s, [])
  | s, sig :: rest =>
      match dispatchSignal now s sig with
      | Except.error e => Except.error e
      | Except.ok (s1, a1) =>
          match runSignals now s1 rest with
          | Except.error e => Except.error e
          | Except.ok (s2, a2) => Except.ok (s2, a1 ++ a2)

/-- One full check: `checkForUpdate()` starts the worker, the worker runs
and reports outcome `o`, completion is processed at time `now`. -/
def performCheck (o : Outcome) (now : Int) (s : UMState) :
    Except String (UMState × List Action) :=
  let p := checkForUpdate s
  match runSignals now p.1 (workerRun o) with
  | Except.error e => Except.error e
  | Except.ok (s2, a2) => Except.ok (s2, p.2 ++ a2)

/-- A sequence of deliveries of the auto-check preference-change signal,
each a (new value, current time) pair, processed in order. -/
def runPrefChanges (events : List (Bool × Int)) (s : UMState) : UMState :=
  events.foldl (fun st e => onAutoCheckForUpdateChanged e.1 e.2 st) s

/-- Is this action one of the three outcome signal emissions? -/
def isOutcomeSignal : Action → Bool
  | Action.emit (Signal.updateIsAvailable _ _) => true
  | Action.emit Signal.noUpdateIsAvailable => true
  | Action.emit Signal.updateCheckFailed => true
  | _ => false

/-- Is this action the emission of `finishedUpdateCheck`? -/
def isFinishedSignal : Action → Bool
  | Action.emit Signal.finishedUpdateCheck => true
  | _ => false

/-- Is this action part of the worker-thread teardown? -/
def isThreadDisposal : Action → Bool
  | Action.threadQuit => true
  | Action.threadWait => true
  | Action.deleteWorker => true
  | Action.threadDeleteLater => true
  | _ => false

/-- Is this action part of completion processing (persisting the
timestamp or re-arming the timer)? -/
def isCompletionProcessing : Action → Bool
  | Action.setLastCheck _ => true
  | Action.timerStart _ => true
  | _ => false

/-- `allEmittedBefore p q l` holds when every action satisfying `p` occurs
strictly before every action satisfying `q` in `l`: whenever the head
satisfies `q`, no action from the head on satisfies `p`. -/
def allEmittedBefore (p q : Action → Bool) : List Action → Bool
  | [] => true
  | a :: rest =>
      (!q a || (a :: rest).all (fun x => !p x)) && allEmittedBefore p q rest

end UpdateManager

namespace globals

/-- Environment values the path helpers read from Qt and from
`BeeftextUtils`: portable-mode flags and the two base directories. -/
structure PathEnv where
  isInPortableMode : Bool
  usePortableAppsFolderLayout : Bool
  standardAppLocalDataLocation : String
  applicationDirPath : String
deriving DecidableEq

/-- The two backup-related preferences read by `backupFolderPath`. -/
structure BackupPrefs where
  useCustomBackupLocation : Bool
  customBackupLocation : String
deriving DecidableEq

/-- `QDir(dir).absoluteFilePath(fileName)` for an absolute `dir` and a
relative `fileName`: joins with the directory separator. -/
def absoluteFilePath (dir fileName : String) : String :=
  dir ++ "/" ++ fileName

/-- `globals::portableModeDataFolderPath()`. -/
def portableModeDataFolderPath (env : PathEnv) : String :=
  if env.usePortableAppsFolderLayout then
    absoluteFilePath env.applicationDirPath "../../Data/settings"
  else
    absoluteFilePath env.applicationDirPath "Data"

/-- `globals::appDataDir()`. -/
def appDataDir (env : PathEnv) : String :=
  if env.isInPortableMode then portableModeDataFolderPath env
  else env.standardAppLocalDataLocation

/-- `globals::defaultBackupFolderPath()`: the "Backup" subdirectory of the
application data directory. -/
def defaultBackupFolderPath (env : PathEnv) : String :=
  absoluteFilePath (appDataDir env) "Backup"

/-- `globals::backupFolderPath()`: the default path unless the
use-custom-backup-location preference is set and the stored custom
location is non-empty. -/
def backupFolderPath (env : PathEnv) (prefs : BackupPrefs) : String :=
  let defaultPath := defaultBackupFolderPath env
  if !prefs.useCustomBackupLocation then defaultPath
  else
    let customPath := prefs.customBackupLocation
    if customPath.isEmpty then defaultPath else customPath

/-- State of the file-scope global `clipboardManagerPtr`, instrumented
with identities: `none` is the null pointer, `some id` a constructed
`ClipboardManagerDefault` instance identified by `id`; `constructions`
counts how many instances have been constructed so far (each construction
yields a fresh identity). -/
structure ClipboardState where
  clipboardManagerPtr : Option Nat
  constructions : Nat
deriving DecidableEq

/-- `globals::clipboardManager()`: if the pointer is null, constructs a
`ClipboardManagerDefault` and stores it; returns (a reference to) the
stored instance. -/
def clipboardManager (g : ClipboardState) : Nat × ClipboardState :=
  match g.clipboardManagerPtr with
  | none =>
      (g.constructions,
       { clipboardManagerPtr := some g.constructions
         constructions := g.constructions + 1 })
  | some id => (id, g)

end globals

/-- The handler leaves the timer armed exactly when the delivered value is
`enabled`. -/
theorem timerArmed_onAutoCheck (e : Bool) (now : Int) (s : UpdateManager.UMState) :
    (UpdateManager.onAutoCheckForUpdateChanged e now s).timerArmed = e := by
  cases e <;> rfl

/-- C1: with auto-check enabled, the timer delay is the short delay when
no last-check timestamp is recorded, otherwise
`max(shortDelay, lastCheck + 24h - now)`, and in all cases at least the
short delay; the constructor's initial evaluation arms the timer the same
way. -/
theorem C1_autocheck_delay (now : Int) (s : UpdateManager.UMState) (lc : Option Int) :
    (UpdateManager.onAutoCheckForUpdateChanged true now s).timerArmed = true
    ∧ (s.lastUpdateCheckDateTime = none →
        (UpdateManager.onAutoCheckForUpdateChanged true now s).timerInterval
          = UpdateManager.kLaunchCheckDelayMs)
    ∧ (∀ t, s.lastUpdateCheckDateTime = some t →
        (UpdateManager.onAutoCheckForUpdateChanged true now s).timerInterval
          = max UpdateManager.kLaunchCheckDelayMs
              ((t + UpdateManager.kUpdateCheckIntervalMs) - now))
    ∧ UpdateManager.kLaunchCheckDelayMs
        ≤ (UpdateManager.onAutoCheckForUpdateChanged true now s).timerInterval
    ∧ UpdateManager.construct true lc now
        = UpdateManager.onAutoCheckForUpdateChanged true now
            (UpdateManager.initialState true lc) := by
  refine ⟨rfl, ?_, ?_, ?_, rfl⟩
  · intro h
    simp [UpdateManager.onAutoCheckForUpdateChanged, UpdateManager.msSecsToNextCheck, h]
  · intro t h
    simp [UpdateManager.onAutoCheckForUpdateChanged, UpdateManager.msSecsToNextCheck, h]
  · show UpdateManager.kLaunchCheckDelayMs
      ≤ UpdateManager.msSecsToNextCheck now s.lastUpdateCheckDateTime
    cases h : s.lastUpdateCheckDateTime with
    | none => simp [UpdateManager.msSecsToNextCheck]
    | some t => simp [UpdateManager.msSecsToNextCheck]

/-- C2: after any sequence of delivered preference values ending in
`(v, t)`, the timer is armed exactly when `v` is true; the constructor
starts from a disarmed timer and immediately evaluates the current
preference value, leaving the timer armed exactly when it is true. -/
theorem C2_armed_iff_last_enabled (pre : List (Bool × Int)) (v : Bool) (t now : Int)
    (s : UpdateManager.UMState) (a : Bool) (lc : Option Int) :
    (UpdateManager.runPrefChanges (pre ++ [(v, t)]) s).timerArmed = v
    ∧ (UpdateManager.initialState a lc).timerArmed = false
    ∧ (UpdateManager.construct a lc now).timerArmed = a := by
  refine ⟨?_, rfl, timerArmed_onAutoCheck a now (UpdateManager.initialState a lc)⟩
  unfold UpdateManager.runPrefChanges
  rw [List.foldl_append]
  exact timerArmed_onAutoCheck v t _

/-- C5: `checkForUpdate` in any state stops the timer first, then starts a
worker-based check, emitting `startedUpdateCheck`; there is no guard, so
the number of active workers always grows by one, even when a check is
already in progress. -/
theorem C5_check_disarms_then_starts (s : UpdateManager.UMState) :
    UpdateManager.checkForUpdate s
      = ({ s with timerArmed := false, activeWorkers := s.activeWorkers + 1 },
         [UpdateManager.Action.timerStop,
          UpdateManager.Action.emit UpdateManager.Signal.startedUpdateCheck,
          UpdateManager.Action.threadStart])
    ∧ (UpdateManager.checkForUpdate s).1.activeWorkers = s.activeWorkers + 1 := by
  exact ⟨rfl, rfl⟩

/-- C3: whatever the outcome, processing the worker's completion at time
`now` sets the last-check preference to `now` and re-arms the timer for
exactly the full 24-hour interval; the error outcome leads to the same
final state as the no-update outcome, and their action traces differ only
in which signal is emitted as the outcome notification. -/
theorem C3_completion_persists_and_rearms (o : UpdateManager.Outcome) (now : Int)
    (s : UpdateManager.UMState) (msg : String) :
    (∃ s2 acts, UpdateManager.performCheck o now s = Except.ok (s2, acts)
      ∧ s2.lastUpdateCheckDateTime = some now
      ∧ s2.timerArmed = true
      ∧ s2.timerInterval = UpdateManager.kUpdateCheckIntervalMs)
    ∧ Except.map Prod.fst (UpdateManager.performCheck (UpdateManager.Outcome.error msg) now s)
        = Except.map Prod.fst (UpdateManager.performCheck UpdateManager.Outcome.noUpdate now s)
    ∧ (∃ s2 pre post,
        UpdateManager.performCheck UpdateManager.Outcome.noUpdate now s
          = Except.ok (s2, pre
              ++ UpdateManager.Action.emit UpdateManager.Signal.noUpdateIsAvailable :: post)
        ∧ UpdateManager.performCheck (UpdateManager.Outcome.error msg) now s
          = Except.ok (s2, pre
              ++ UpdateManager.Action.emit UpdateManager.Signal.updateCheckFailed :: post)) := by
  refine ⟨?_, rfl, ?_⟩
  · cases o <;> exact ⟨_, _, rfl, rfl, rfl, rfl⟩
  · exact ⟨_,
      [UpdateManager.Action.timerStop,
       UpdateManager.Action.emit UpdateManager.Signal.startedUpdateCheck,
       UpdateManager.Action.threadStart],
      [UpdateManager.Action.threadQuit, UpdateManager.Action.threadWait,
       UpdateManager.Action.deleteWorker, UpdateManager.Action.threadDeleteLater,
       UpdateManager.Action.emit UpdateManager.Signal.finishedUpdateCheck,
       UpdateManager.Action.setLastCheck now,
       UpdateManager.Action.timerStart UpdateManager.kUpdateCheckIntervalMs],
      rfl, rfl⟩

/-- C4 counterexample: the auto-check preference is turned off while a
check is in flight (one active worker); when that check completes, the
completion handler nevertheless leaves the timer armed, although the
preference is still false at completion time. -/
theorem C4_counterexample :
    (Except.map (fun p => (p.1.timerArmed, p.1.autoCheckForUpdates))
      (UpdateManager.onWorkerFinished true 2000
        (UpdateManager.onAutoCheckForUpdateChanged false 1000
          { timerArmed := true, timerInterval := 500, lastUpdateCheckDateTime := some 0,
            autoCheckForUpdates := true, activeWorkers := 1 })))
      = Except.ok (true, false) := by
  rfl

/-- C4 amended: turning auto-check off while a check is in flight disarms
the timer then, but the in-flight check's completion unconditionally
re-arms the timer for the full interval, leaving it armed even though the
preference is false; the timer only becomes disarmed again if the
disable handler fires once more. -/
theorem C4_amended_completion_rearms (s : UpdateManager.UMState) (t1 t2 t3 : Int) :
    (UpdateManager.onAutoCheckForUpdateChanged false t1 s).timerArmed = false
    ∧ (∃ s2 acts,
        UpdateManager.onWorkerFinished true t2
            (UpdateManager.onAutoCheckForUpdateChanged false t1 s)
          = Except.ok (s2, acts)
        ∧ s2.timerArmed = true
        ∧ s2.timerInterval = UpdateManager.kUpdateCheckIntervalMs
        ∧ s2.autoCheckForUpdates = false
        ∧ (UpdateManager.onAutoCheckForUpdateChanged false t3 s2).timerArmed = false) := by
  exact ⟨rfl, _, _, rfl, rfl, rfl, rfl, rfl⟩

/-- C6: (a) a completion whose sender is not identifiable as an
update-check worker raises an exception with no teardown, persistence or
re-arm action; (b) a null version-info pointer raises an exception and
emits nothing; (c) a worker error is absorbed into a single notification
and a correctly identified completion still re-arms the timer for the
full interval. -/
theorem C6_internal_failures_are_exceptions (now : Int) (s : UpdateManager.UMState)
    (msg : String) :
    UpdateManager.onWorkerFinished false now s
      = Except.error "An Internal error occurred while checking for updates."
    ∧ UpdateManager.onWorkerUpdateIsAvailable none
      = Except.error "onWorkerUpdateIsAvailable(): latestVersionInfo parameter is null."
    ∧ UpdateManager.onWorkerError msg
      = [UpdateManager.Action.emit UpdateManager.Signal.updateCheckFailed]
    ∧ (∃ s2 acts, UpdateManager.onWorkerFinished true now s = Except.ok (s2, acts)
        ∧ s2.timerArmed = true
        ∧ s2.timerInterval = UpdateManager.kUpdateCheckIntervalMs) := by
  exact ⟨rfl, rfl, rfl, _, _, rfl, rfl, rfl⟩

/-- C7 counterexample: two different worker error messages produce exactly
the same emitted actions, so the "check failed" notification cannot carry
the worker's error description. -/
theorem C7_counterexample :
    UpdateManager.onWorkerError "Network error" = UpdateManager.onWorkerError ""
    ∧ "Network error" ≠ "" := by
  exact ⟨rfl, by decide⟩

/-- C7 amended: when the worker reports an error, the orchestrator emits
the payload-free `updateCheckFailed()` signal; the worker's error message
is discarded and the emitted actions are independent of it. -/
theorem C7_amended_failure_signal_has_no_payload (msg msg2 : String) :
    UpdateManager.onWorkerError msg
      = [UpdateManager.Action.emit UpdateManager.Signal.updateCheckFailed]
    ∧ UpdateManager.onWorkerError msg = UpdateManager.onWorkerError msg2 := by
  exact ⟨rfl, rfl⟩

/-- C8: the backup-folder path is the default "Backup" subdirectory of
the application data directory whenever the use-custom-backup-location
preference is false, and also when it is true but the stored custom
location is empty; it is the custom location exactly when the preference
is true and the custom location is non-empty. -/
theorem C8_backup_folder_fallback (env : globals.PathEnv) (prefs : globals.BackupPrefs) :
    globals.defaultBackupFolderPath env
      = globals.absoluteFilePath (globals.appDataDir env) "Backup"
    ∧ (prefs.useCustomBackupLocation = false →
        globals.backupFolderPath env prefs = globals.defaultBackupFolderPath env)
    ∧ (prefs.useCustomBackupLocation = true → prefs.customBackupLocation = "" →
        globals.backupFolderPath env prefs = globals.defaultBackupFolderPath env)
    ∧ (prefs.useCustomBackupLocation = true → prefs.customBackupLocation ≠ "" →
        globals.backupFolderPath env prefs = prefs.customBackupLocation) := by
  refine ⟨rfl, ?_, ?_, ?_⟩
  · intro h
    simp [globals.backupFolderPath, h]
  · intro h h2
    have he : prefs.customBackupLocation.isEmpty = true := by
      rw [h2]
      rfl
    simp [globals.backupFolderPath, h, he]
  · intro h h2
    have he : prefs.customBackupLocation.isEmpty = false := by
      rw [Bool.eq_false_iff]
      intro hc
      exact h2 ((String.isEmpty_iff prefs.customBackupLocation).mp hc)
    simp [globals.backupFolderPath, h, he]

/-- C8 witness: the three branches at concrete preference values. -/
theorem C8_backup_folder_fallback_witness :
    globals.backupFolderPath ⟨false, false, "/data", "/app"⟩ ⟨false, "/custom"⟩
      = globals.defaultBackupFolderPath ⟨false, false, "/data", "/app"⟩
    ∧ globals.backupFolderPath ⟨false, false, "/data", "/app"⟩ ⟨true, ""⟩
      = globals.defaultBackupFolderPath ⟨false, false, "/data", "/app"⟩
    ∧ globals.backupFolderPath ⟨false, false, "/data", "/app"⟩ ⟨true, "/custom"⟩
      = "/custom" := by
  refine ⟨?_, ?_, ?_⟩
  · exact (C8_backup_folder_fallback ⟨false, false, "/data", "/app"⟩
      ⟨false, "/custom"⟩).2.1 rfl
  · exact (C8_backup_folder_fallback ⟨false, false, "/data", "/app"⟩
      ⟨true, ""⟩).2.2.1 rfl rfl
  · exact (C8_backup_folder_fallback ⟨false, false, "/data", "/app"⟩
      ⟨true, "/custom"⟩).2.2.2 rfl (by decide)

/-- C9: every check run emits exactly one of the three outcome signals and
exactly one `finishedUpdateCheck`; the outcome signal precedes the
finished signal, and every completion-processing action (persisting the
timestamp, re-arming the timer) comes after every worker-thread disposal
action. -/
theorem C9_outcome_before_finished (o : UpdateManager.Outcome) (now : Int)
    (s : UpdateManager.UMState) :
    ∃ s2 acts, UpdateManager.performCheck o now s = Except.ok (s2, acts)
      ∧ acts.countP UpdateManager.isOutcomeSignal = 1
      ∧ acts.countP UpdateManager.isFinishedSignal = 1
      ∧ UpdateManager.allEmittedBefore
          UpdateManager.isOutcomeSignal UpdateManager.isFinishedSignal acts = true
      ∧ UpdateManager.allEmittedBefore
          UpdateManager.isThreadDisposal UpdateManager.isCompletionProcessing acts = true := by
  cases o <;> exact ⟨_, _, rfl, rfl, rfl, rfl, rfl⟩

/-- C10: the clipboard-manager accessor is an idempotent lazy
initializer: after any call the stored pointer holds the returned
instance; a second call returns the same instance and does not change the
state; a first call from the null state performs exactly one
construction; a call with an instance already stored returns that very
instance with no state change. -/
theorem C10_clipboard_lazy_singleton (g : globals.ClipboardState) :
    (globals.clipboardManager g).2.clipboardManagerPtr
        = some (globals.clipboardManager g).1
    ∧ globals.clipboardManager (globals.clipboardManager g).2
        = ((globals.clipboardManager g).1, (globals.clipboardManager g).2)
    ∧ (g.clipboardManagerPtr = none →
        (globals.clipboardManager g).2.constructions = g.constructions + 1)
    ∧ (∀ id, g.clipboardManagerPtr = some id →
        (globals.clipboardManager g).2 = g ∧ (globals.clipboardManager g).1 = id) := by
  obtain ⟨ptr, c⟩ := g
  cases ptr with
  | none =>
      refine ⟨rfl, rfl, ?_, ?_⟩
      · intro h
        rfl
      · intro id h
        simp [globals.clipboardManager] at h
  | some id =>
      refine ⟨rfl, rfl, ?_, ?_⟩
      · intro h
        simp [globals.clipboardManager] at h
      · intro id2 h
        have hid : id = id2 := Option.some.inj h
        subst hid
        exact ⟨rfl, rfl⟩

/-- C10 witness: a first call from the null state constructs once; the
call on the resulting state returns the same instance unchanged. -/
theorem C10_clipboard_lazy_singleton_witness :
    (globals.clipboardManager ⟨none, 0⟩).2.constructions = 0 + 1
    ∧ (globals.clipboardManager ⟨some 5, 1⟩).2 = ⟨some 5, 1⟩
    ∧ (globals.clipboardManager ⟨some 5, 1⟩).1 = 5 := by
  refine ⟨(C10_clipboard_lazy_singleton ⟨none, 0⟩).2.2.1 rfl, ?_⟩
  exact (C10_clipboard_lazy_singleton ⟨some 5, 1⟩).2.2.2 5 rfl

/-- C1 witness: concrete overdue case (remaining time negative) where the
delay clamps to the short delay, and the null-timestamp case. -/
theorem C1_autocheck_delay_witness :
    (UpdateManager.onAutoCheckForUpdateChanged true 200000000
        (UpdateManager.initialState true (some 0))).timerInterval
      = UpdateManager.kLaunchCheckDelayMs
    ∧ (UpdateManager.onAutoCheckForUpdateChanged true 7
        (UpdateManager.initialState true none)).timerInterval
      = UpdateManager.kLaunchCheckDelayMs := by
  have h1 := (C1_autocheck_delay 200000000 (UpdateManager.initialState true (some 0)) none).2.1
  have h2 := (C1_autocheck_delay 200000000 (UpdateManager.initialState true (some 0)) none).2.2.1
  have h3 := (C1_autocheck_delay 7 (UpdateManager.initialState true none) none).2.1
  refine ⟨?_, h3 rfl⟩
  rw [h2 0 rfl]
  decide
